import Mathlib

/-!
Shallow embedding of `src/PaineldeControle.c` (FreeRTOS access-control panel).

The occupancy counter is the FreeRTOS counting semaphore `xUsuariosSem`
(capacity `MAX_USUARIOS = 9`, initial count 0); `g_num_usuarios_ativos` is the
`uint8_t` feedback snapshot.  Entry/exit/reset are serviced by three tasks
(`vTaskEntrada`, `vTaskSaida`, `vTaskReset`); raw GPIO edges go through
`gpio_irq_handler`, which debounces per source (200 ms, uint32 wraparound
subtraction) and gives a per-source binary semaphore.

Machine integers are modelled as `Int`/`Nat` with explicit `% 2^32` and `% 256`
where the C types (`uint32_t`, `uint8_t`) make overflow observable.  External
effects (buzzer tones, display/LED refresh, the reset cooldown delay) are
recorded as an ordered `List FxAction` emitted by each task-body iteration.
-/

/-- Capacity constant `MAX_USUARIOS` (line 63 of the C source). -/
def MAX_USUARIOS : Int := 9

/-- Debounce threshold `DEBOUNCE_DELAY_MS` (line 69). -/
def DEBOUNCE_DELAY_MS : Nat := 200

/-- Reset-task cooldown, `vTaskDelay(pdMS_TO_TICKS(500))` (line 251). -/
def RESET_COOLDOWN_MS : Nat := 500

/-- Modulus of the C `uint32_t` type. -/
def U32_MOD : Nat := 4294967296

/-- GPIO pin of the entry button (line 35). -/
def BOTAO_ENTRADA : Nat := 5

/-- GPIO pin of the exit button (line 36). -/
def BOTAO_SAIDA : Nat := 6

/-- GPIO pin of the reset button (line 37). -/
def BOTAO_RESET : Nat := 22

/-- C `uint32_t` subtraction `a - b`: wraps modulo `2^32`. -/
def u32_sub (a b : Nat) : Nat :=
  (a % U32_MOD + (U32_MOD - b % U32_MOD)) % U32_MOD

/-- C conversion of a value to `uint8_t`: reduction modulo 256 (`Int.emod`
is non-negative, matching C unsigned conversion). -/
def uint8_cast (n : Int) : Int := n % 256

/-- FreeRTOS counting semaphore give with capacity `MAX_USUARIOS`
(`xSemaphoreGive(xUsuariosSem)`, line 182): succeeds and increments iff the
count is below capacity, otherwise fails leaving the count unchanged.
Returns (success, new count). -/
def xSemaphoreGive_counting (count : Int) : Bool × Int :=
  if count < MAX_USUARIOS then (true, count + 1) else (false, count)

/-- FreeRTOS counting semaphore take with zero timeout
(`xSemaphoreTake(xUsuariosSem, 0)`, lines 211 and 233): succeeds and
decrements iff the count is positive, otherwise fails leaving the count
unchanged.  Returns (success, new count). -/
def xSemaphoreTake_counting (count : Int) : Bool × Int :=
  if 0 < count then (true, count - 1) else (false, count)

/-- Modelled from the spec: the FreeRTOS binary-semaphore give used by the
dispatcher (`xSemaphoreGiveFromISR` on `xEntradaSem`/`xSaidaSem`/`xResetSem`;
the kernel implementation is not in `src/`).  Per the spec's Event Channel,
it is a single-slot coalescing signal: give sets the pending slot, and a give
while already pending fails without queuing or counting.
Returns (success, new pending state). -/
def xSemaphoreGiveFromISR_binary (pending : Bool) : Bool × Bool :=
  (!pending, true)

/-- Drain loop of `vTaskReset` (lines 231-235): take tokens without blocking
while the count is positive. -/
def drainLoop (count : Int) : Int :=
  if 0 < count then drainLoop (count - 1) else count
termination_by count.toNat
decreasing_by
  simp_wf
  omega

/-- Shared counter state: the counting semaphore count and the `uint8_t`
feedback snapshot `g_num_usuarios_ativos`. -/
structure CoreState where
  xUsuariosSem : Int
  g_num_usuarios_ativos : Int
deriving DecidableEq

/-- State after `main` creates `xUsuariosSem` with initial count 0 and sets
`g_num_usuarios_ativos` from it (lines 302 and 315). -/
def initialCore : CoreState := ⟨0, 0⟩

/-- External effects a task-body iteration performs, in order: buzzer tone
(`buzzer_set_freq` + `sleep_ms` + `buzzer_stop`), inter-pulse pause
(`sleep_ms`), LED refresh (`atualizar_feedback_led_rgb`), display refresh
(`atualizar_feedback_display`), and the reset cooldown (`vTaskDelay`).
Refreshes record the snapshot value they render. -/
inductive FxAction where
  | tone (freq_hz dur_ms : Nat)
  | pause (dur_ms : Nat)
  | refreshLed (n : Int)
  | refreshDisplay (n : Int)
  | cooldown (dur_ms : Nat)
deriving DecidableEq

/-- Whether an action is a buzzer tone. -/
def isToneAction : FxAction → Bool
  | .tone _ _ => true
  | _ => false

/-- One iteration of the `vTaskEntrada` body after its event semaphore fires
(lines 178-197): give `xUsuariosSem`, store the count into
`g_num_usuarios_ativos` (uint8 cast), beep 500 Hz for 100 ms iff the give
failed and the snapshot reads `MAX_USUARIOS`, then refresh LED and display. -/
def vTaskEntrada_step (s : CoreState) : CoreState × List FxAction :=
  let result := (xSemaphoreGive_counting s.xUsuariosSem).1
  let count := (xSemaphoreGive_counting s.xUsuariosSem).2
  let g := uint8_cast count
  (⟨count, g⟩,
    (if result = false ∧ g = MAX_USUARIOS then [FxAction.tone 500 100] else []) ++
      [FxAction.refreshLed g, FxAction.refreshDisplay g])

/-- One iteration of the `vTaskSaida` body after its event semaphore fires
(lines 207-217): try to take one token without blocking, store the count into
`g_num_usuarios_ativos`, then refresh LED and display.  No tone on failure. -/
def vTaskSaida_step (s : CoreState) : CoreState × List FxAction :=
  let count := (xSemaphoreTake_counting s.xUsuariosSem).2
  let g := uint8_cast count
  (⟨count, g⟩, [FxAction.refreshLed g, FxAction.refreshDisplay g])

/-- One iteration of the `vTaskReset` body after its event semaphore fires
(lines 227-252): zero `g_num_usuarios_ativos`, drain `xUsuariosSem` to zero,
emit the double beep (1500 Hz 100 ms, 50 ms pause, 1500 Hz 100 ms), refresh
LED and display, then delay 500 ms. -/
def vTaskReset_step (s : CoreState) : CoreState × List FxAction :=
  let count := drainLoop s.xUsuariosSem
  (⟨count, 0⟩,
    [FxAction.tone 1500 100, FxAction.pause 50, FxAction.tone 1500 100,
      FxAction.refreshLed 0, FxAction.refreshDisplay 0,
      FxAction.cooldown RESET_COOLDOWN_MS])

/-- A serviced logical event: which task body runs one iteration. -/
inductive Op where
  | entrada
  | saida
  | reset
deriving DecidableEq

/-- Effect of servicing one event on the shared counter state. -/
def applyOp (s : CoreState) (op : Op) : CoreState :=
  match op with
  | .entrada => (vTaskEntrada_step s).1
  | .saida => (vTaskSaida_step s).1
  | .reset => (vTaskReset_step s).1

/-- Counter state after servicing a sequence of events from the initial
state. -/
def runOps (ops : List Op) : CoreState :=
  ops.foldl applyOp initialCore

/-- Status label drawn by `atualizar_feedback_display` (lines 142-148). -/
inductive Status where
  | VACANT
  | OK
  | FULL
deriving DecidableEq

/-- Status branch of `atualizar_feedback_display` (lines 142-148), as a
function of the snapshot value. -/
def status_of (n : Int) : Status :=
  if n = 0 then .VACANT
  else if n < MAX_USUARIOS then .OK
  else .FULL

/-- An RGB level triple passed to `set_rgb_color`. -/
structure Rgb where
  r : Nat
  g : Nat
  b : Nat
deriving DecidableEq

/-- Colour logic of `atualizar_feedback_led_rgb` (lines 156-166), as a
function of the snapshot value. -/
def atualizar_feedback_led_rgb (n : Int) : Rgb :=
  if n = 0 then ⟨0, 0, 255⟩
  else if 0 < n ∧ n ≤ MAX_USUARIOS - 2 then ⟨0, 255, 0⟩
  else if n = MAX_USUARIOS - 1 then ⟨255, 255, 0⟩
  else ⟨255, 0, 0⟩

/-- Dispatcher-side state: the three per-source debounce timestamps and the
three binary event semaphores. -/
structure IrqState where
  last_debounce_time_entrada : Nat
  last_debounce_time_saida : Nat
  last_debounce_time_reset : Nat
  xEntradaSem : Bool
  xSaidaSem : Bool
  xResetSem : Bool
deriving DecidableEq

/-- Boot state: all debounce timestamps 0 (lines 66-68), all binary
semaphores created empty (lines 303-305). -/
def initialIrq : IrqState := ⟨0, 0, 0, false, false, false⟩

/-- The GPIO interrupt callback (lines 81-102): for the matching button, if
the uint32 difference between now and that source's last debounce time
exceeds `DEBOUNCE_DELAY_MS`, record the new timestamp and give that source's
binary semaphore; otherwise do nothing. -/
def gpio_irq_handler (gpio : Nat) (current_time_ms : Nat) (s : IrqState) : IrqState :=
  if gpio = BOTAO_ENTRADA ∧ DEBOUNCE_DELAY_MS < u32_sub current_time_ms s.last_debounce_time_entrada then
    { s with last_debounce_time_entrada := current_time_ms,
             xEntradaSem := (xSemaphoreGiveFromISR_binary s.xEntradaSem).2 }
  else if gpio = BOTAO_SAIDA ∧ DEBOUNCE_DELAY_MS < u32_sub current_time_ms s.last_debounce_time_saida then
    { s with last_debounce_time_saida := current_time_ms,
             xSaidaSem := (xSemaphoreGiveFromISR_binary s.xSaidaSem).2 }
  else if gpio = BOTAO_RESET ∧ DEBOUNCE_DELAY_MS < u32_sub current_time_ms s.last_debounce_time_reset then
    { s with last_debounce_time_reset := current_time_ms,
             xResetSem := (xSemaphoreGiveFromISR_binary s.xResetSem).2 }
  else s

/-- Pin monitored for each signal source (lines 35-37). -/
def pinOf : Op → Nat
  | .entrada => BOTAO_ENTRADA
  | .saida => BOTAO_SAIDA
  | .reset => BOTAO_RESET

/-- Debounce timestamp of a source in the dispatcher state (lines 66-68). -/
def lastOf (s : IrqState) : Op → Nat
  | .entrada => s.last_debounce_time_entrada
  | .saida => s.last_debounce_time_saida
  | .reset => s.last_debounce_time_reset

/-- Pending slot of a source's event channel (lines 303-305). -/
def semOf (s : IrqState) : Op → Bool
  | .entrada => s.xEntradaSem
  | .saida => s.xSaidaSem
  | .reset => s.xResetSem

/-- State produced by the accepting branch of `gpio_irq_handler` for a
source (lines 86-99): that source's debounce timestamp becomes the current
time and its binary semaphore is given; nothing else changes. -/
def acceptedUpdate (src : Op) (t : Nat) (s : IrqState) : IrqState :=
  match src with
  | .entrada => { s with last_debounce_time_entrada := t,
                         xEntradaSem := (xSemaphoreGiveFromISR_binary s.xEntradaSem).2 }
  | .saida => { s with last_debounce_time_saida := t,
                       xSaidaSem := (xSemaphoreGiveFromISR_binary s.xSaidaSem).2 }
  | .reset => { s with last_debounce_time_reset := t,
                       xResetSem := (xSemaphoreGiveFromISR_binary s.xResetSem).2 }

/-- Scheduling model of the `vTaskReset` loop (lines 225-253) together with
the binary `xResetSem` raised by `gpio_irq_handler`: given the ascending
arrival times of post-debounce reset signals, the current pending signal (the
binary semaphore slot, with its arrival time) and the earliest time the task
can next execute its blocking take (after its 500 ms cooldown), return the
times at which reset servicing begins.  A pending signal is serviced at
`max freeAt arrival`; a signal arriving while one is pending coalesces into
it; servicing occupies the task for `RESET_COOLDOWN_MS` (the drain, beeps and
refresh are idealized as instantaneous). -/
def vTaskReset_services : List Nat → Option Nat → Nat → List Nat
  | [], none, _ => []
  | [], some a, freeAt => [max freeAt a]
  | t :: rest, none, freeAt => vTaskReset_services rest (some t) freeAt
  | t :: rest, some a, freeAt =>
    if max freeAt a ≤ t then
      max freeAt a :: vTaskReset_services rest (some t) (max freeAt a + RESET_COOLDOWN_MS)
    else
      vTaskReset_services rest (some a) freeAt

/-! Helper lemmas shared by the claim theorems. -/

/-- Draining a non-negative count reaches exactly zero. -/
theorem drainLoop_of_nonneg (c : Int) (h : 0 ≤ c) : drainLoop c = 0 := by
  lift c to ℕ using h
  induction c with
  | zero =>
    rw [drainLoop]
    simp
  | succ k ih =>
    rw [drainLoop]
    have h1 : (0 : Int) < ((k + 1 : ℕ) : Int) := by positivity
    rw [if_pos h1]
    have h2 : ((k + 1 : ℕ) : Int) - 1 = (k : Int) := by push_cast; ring
    rw [h2]
    exact ih

/-- The invariant maintained by every task-body iteration: both the semaphore
count and the snapshot lie in `[0, MAX_USUARIOS]`. -/
def CoreInv (s : CoreState) : Prop :=
  0 ≤ s.xUsuariosSem ∧ s.xUsuariosSem ≤ MAX_USUARIOS ∧
    0 ≤ s.g_num_usuarios_ativos ∧ s.g_num_usuarios_ativos ≤ MAX_USUARIOS

theorem applyOp_preserves_inv (s : CoreState) (op : Op) (h : CoreInv s) :
    CoreInv (applyOp s op) := by
  obtain ⟨h0, h9, hg0, hg9⟩ := h
  cases op with
  | entrada =>
    simp only [applyOp, vTaskEntrada_step, xSemaphoreGive_counting, uint8_cast,
      CoreInv, MAX_USUARIOS] at *
    split_ifs with hc
    all_goals simp only []
    all_goals refine ⟨by omega, by omega, by omega, by omega⟩
  | saida =>
    simp only [applyOp, vTaskSaida_step, xSemaphoreTake_counting, uint8_cast,
      CoreInv, MAX_USUARIOS] at *
    split_ifs with hc
    all_goals simp only []
    all_goals refine ⟨by omega, by omega, by omega, by omega⟩
  | reset =>
    simp only [applyOp, vTaskReset_step, CoreInv, MAX_USUARIOS] at *
    rw [drainLoop_of_nonneg _ h0]
    refine ⟨le_refl _, by norm_num, le_refl _, by norm_num⟩

theorem foldl_applyOp_inv (ops : List Op) (s : CoreState) (h : CoreInv s) :
    CoreInv (List.foldl applyOp s ops) := by
  induction ops generalizing s with
  | nil => exact h
  | cons op rest ih => exact ih _ (applyOp_preserves_inv s op h)

/-- CLAIM C1: for every sequence of serviced entry, exit and reset events
from the initial state, the semaphore count and the feedback snapshot
`g_num_usuarios_ativos` both stay within `[0, MAX_USUARIOS]` — never negative,
never above the maximum. -/
theorem C1_occupancy_bounded (ops : List Op) :
    0 ≤ (runOps ops).xUsuariosSem ∧ (runOps ops).xUsuariosSem ≤ MAX_USUARIOS ∧
      0 ≤ (runOps ops).g_num_usuarios_ativos ∧
      (runOps ops).g_num_usuarios_ativos ≤ MAX_USUARIOS := by
  have h : CoreInv (runOps ops) := by
    apply foldl_applyOp_inv
    refine ⟨le_refl _, by norm_num [MAX_USUARIOS, initialCore], le_refl _, by norm_num [MAX_USUARIOS, initialCore]⟩
  exact h

/-- CLAIM C2: after one reset servicing, both the semaphore count and the
snapshot are exactly 0 regardless of the prior (non-negative) count, and the
emitted effect trace is precisely the two-pulse confirmation (tone, pause,
tone) followed by the feedback refresh of the drained value and the
cooldown. -/
theorem C2_reset_total (s : CoreState) (h : 0 ≤ s.xUsuariosSem) :
    (vTaskReset_step s).1.g_num_usuarios_ativos = 0 ∧
      (vTaskReset_step s).1.xUsuariosSem = 0 ∧
      (vTaskReset_step s).2 =
        [FxAction.tone 1500 100, FxAction.pause 50, FxAction.tone 1500 100,
          FxAction.refreshLed 0, FxAction.refreshDisplay 0,
          FxAction.cooldown RESET_COOLDOWN_MS] := by
  refine ⟨rfl, ?_, rfl⟩
  show drainLoop s.xUsuariosSem = 0
  exact drainLoop_of_nonneg _ h

/-- Witness for C2 at the concrete prior state (count 5, snapshot 5). -/
theorem C2_reset_total_witness :
    (vTaskReset_step ⟨5, 5⟩).1.g_num_usuarios_ativos = 0 ∧
      (vTaskReset_step ⟨5, 5⟩).1.xUsuariosSem = 0 ∧
      (vTaskReset_step ⟨5, 5⟩).2 =
        [FxAction.tone 1500 100, FxAction.pause 50, FxAction.tone 1500 100,
          FxAction.refreshLed 0, FxAction.refreshDisplay 0,
          FxAction.cooldown RESET_COOLDOWN_MS] :=
  C2_reset_total ⟨5, 5⟩ (by norm_num)

theorem foldl_entrada_min (n : Nat) (s : CoreState)
    (h0 : 0 ≤ s.xUsuariosSem) (h9 : s.xUsuariosSem ≤ MAX_USUARIOS) :
    (List.foldl applyOp s (List.replicate n Op.entrada)).xUsuariosSem =
      min (s.xUsuariosSem + n) MAX_USUARIOS := by
  induction n generalizing s with
  | zero =>
    simp only [List.replicate, List.foldl_nil]
    simp only [MAX_USUARIOS] at *
    omega
  | succ k ih =>
    rw [List.replicate_succ, List.foldl_cons]
    have hstep : (applyOp s Op.entrada).xUsuariosSem =
        if s.xUsuariosSem < MAX_USUARIOS then s.xUsuariosSem + 1 else s.xUsuariosSem := by
      simp only [applyOp, vTaskEntrada_step, xSemaphoreGive_counting]
      split_ifs <;> rfl
    have h0' : 0 ≤ (applyOp s Op.entrada).xUsuariosSem := by
      rw [hstep]; split_ifs <;> omega
    have h9' : (applyOp s Op.entrada).xUsuariosSem ≤ MAX_USUARIOS := by
      rw [hstep]; simp only [MAX_USUARIOS] at *; split_ifs <;> omega
    rw [ih _ h0' h9', hstep]
    simp only [MAX_USUARIOS] at *
    split_ifs <;> omega

/-- CLAIM C3: the increment attempt (`xSemaphoreGive` on `xUsuariosSem`)
succeeds iff the count is below `MAX_USUARIOS`, and on failure the count is
unchanged; consequently, from the initial state, after any number `n` of
serviced entry events with no intervening exit or reset the count equals
`min n MAX_USUARIOS`. -/
theorem C3_try_enter (c : Int) (n : Nat) :
    ((xSemaphoreGive_counting c).1 = true ↔ c < MAX_USUARIOS) ∧
      ((xSemaphoreGive_counting c).1 = true → (xSemaphoreGive_counting c).2 = c + 1) ∧
      ((xSemaphoreGive_counting c).1 = false → (xSemaphoreGive_counting c).2 = c) ∧
      (runOps (List.replicate n Op.entrada)).xUsuariosSem = min (n : Int) MAX_USUARIOS := by
  refine ⟨?_, ?_, ?_, ?_⟩
  · simp only [xSemaphoreGive_counting]
    split_ifs with hc <;> simp [hc]
  · simp only [xSemaphoreGive_counting]
    split_ifs with hc <;> simp
  · simp only [xSemaphoreGive_counting]
    split_ifs with hc <;> simp
  · have h := foldl_entrada_min n initialCore (by norm_num [initialCore])
      (by norm_num [initialCore, MAX_USUARIOS])
    simpa [runOps, initialCore] using h

/-- Witness for C3 at count 9 and twelve entry events: the give fails, the
count is unchanged, and twelve entries from empty saturate at 9. -/
theorem C3_try_enter_witness :
    (((xSemaphoreGive_counting 9).1 = true ↔ (9 : Int) < MAX_USUARIOS) ∧
      ((xSemaphoreGive_counting 9).1 = true → (xSemaphoreGive_counting 9).2 = 9 + 1) ∧
      ((xSemaphoreGive_counting 9).1 = false → (xSemaphoreGive_counting 9).2 = 9) ∧
      (runOps (List.replicate 12 Op.entrada)).xUsuariosSem = min ((12 : Nat) : Int) MAX_USUARIOS) :=
  C3_try_enter 9 12

theorem foldl_saida_max (n : Nat) (s : CoreState) (h0 : 0 ≤ s.xUsuariosSem) :
    (List.foldl applyOp s (List.replicate n Op.saida)).xUsuariosSem =
      max 0 (s.xUsuariosSem - n) := by
  induction n generalizing s with
  | zero =>
    simp only [List.replicate, List.foldl_nil]
    omega
  | succ k ih =>
    rw [List.replicate_succ, List.foldl_cons]
    have hstep : (applyOp s Op.saida).xUsuariosSem =
        if 0 < s.xUsuariosSem then s.xUsuariosSem - 1 else s.xUsuariosSem := by
      simp only [applyOp, vTaskSaida_step, xSemaphoreTake_counting]
      split_ifs <;> rfl
    have h0' : 0 ≤ (applyOp s Op.saida).xUsuariosSem := by
      rw [hstep]; split_ifs <;> omega
    rw [ih _ h0', hstep]
    split_ifs <;> omega

/-- CLAIM C4: the decrement attempt (`xSemaphoreTake(xUsuariosSem, 0)`)
succeeds iff the count is positive, and on failure the count is unchanged;
the exit task emits no tone and still refreshes LED and display with the new
snapshot; and after any number `n` of serviced exit events with no
intervening entry or reset, the count equals `max 0 (initial - n)`. -/
theorem C4_try_exit (c : Int) (n : Nat) (s : CoreState) (h0 : 0 ≤ s.xUsuariosSem) :
    ((xSemaphoreTake_counting c).1 = true ↔ 0 < c) ∧
      ((xSemaphoreTake_counting c).1 = true → (xSemaphoreTake_counting c).2 = c - 1) ∧
      ((xSemaphoreTake_counting c).1 = false → (xSemaphoreTake_counting c).2 = c) ∧
      (vTaskSaida_step s).2 =
        [FxAction.refreshLed (vTaskSaida_step s).1.g_num_usuarios_ativos,
          FxAction.refreshDisplay (vTaskSaida_step s).1.g_num_usuarios_ativos] ∧
      (∀ a ∈ (vTaskSaida_step s).2, isToneAction a = false) ∧
      (List.foldl applyOp s (List.replicate n Op.saida)).xUsuariosSem =
        max 0 (s.xUsuariosSem - n) := by
  refine ⟨?_, ?_, ?_, rfl, ?_, foldl_saida_max n s h0⟩
  · simp only [xSemaphoreTake_counting]
    split_ifs with hc <;> simp [hc]
  · simp only [xSemaphoreTake_counting]
    split_ifs with hc <;> simp
  · simp only [xSemaphoreTake_counting]
    split_ifs with hc <;> simp
  · intro a ha
    simp only [vTaskSaida_step, List.mem_cons, List.mem_singleton] at ha
    rcases ha with h | h | h
    · rw [h]; rfl
    · rw [h]; rfl
    · exact absurd h (List.not_mem_nil a)

/-- Witness for C4: take from 0 fails leaving 0, the exit step from the empty
state emits only the two refreshes, and three exits from count 2 end at 0. -/
theorem C4_try_exit_witness :
    (((xSemaphoreTake_counting 0).1 = true ↔ (0 : Int) < 0) ∧
      ((xSemaphoreTake_counting 0).1 = true → (xSemaphoreTake_counting 0).2 = 0 - 1) ∧
      ((xSemaphoreTake_counting 0).1 = false → (xSemaphoreTake_counting 0).2 = 0) ∧
      (vTaskSaida_step ⟨2, 2⟩).2 =
        [FxAction.refreshLed (vTaskSaida_step ⟨2, 2⟩).1.g_num_usuarios_ativos,
          FxAction.refreshDisplay (vTaskSaida_step ⟨2, 2⟩).1.g_num_usuarios_ativos] ∧
      (∀ a ∈ (vTaskSaida_step ⟨2, 2⟩).2, isToneAction a = false) ∧
      (List.foldl applyOp ⟨2, 2⟩ (List.replicate 3 Op.saida)).xUsuariosSem =
        max 0 ((2 : Int) - (3 : Nat))) :=
  C4_try_exit 0 3 ⟨2, 2⟩ (by norm_num)

/-- CLAIM C5: one entry servicing emits the short 500 Hz rejection tone iff
the prior count is exactly `MAX_USUARIOS` (the give failed at capacity), it
then emits exactly one tone and leaves the count at `MAX_USUARIOS`; an entry
from `MAX_USUARIOS - 1` succeeds to `MAX_USUARIOS` with no tone. -/
theorem C5_rejection_tone (s : CoreState)
    (h0 : 0 ≤ s.xUsuariosSem) (h9 : s.xUsuariosSem ≤ MAX_USUARIOS) :
    (FxAction.tone 500 100 ∈ (vTaskEntrada_step s).2 ↔ s.xUsuariosSem = MAX_USUARIOS) ∧
      ((vTaskEntrada_step s).2.countP isToneAction =
        if s.xUsuariosSem = MAX_USUARIOS then 1 else 0) ∧
      (s.xUsuariosSem = MAX_USUARIOS →
        (vTaskEntrada_step s).1.xUsuariosSem = MAX_USUARIOS) ∧
      (s.xUsuariosSem = MAX_USUARIOS - 1 →
        (vTaskEntrada_step s).1.xUsuariosSem = MAX_USUARIOS ∧
          (vTaskEntrada_step s).2.countP isToneAction = 0) := by
  have hcase : s.xUsuariosSem = MAX_USUARIOS ∨ s.xUsuariosSem < MAX_USUARIOS := by
    simp only [MAX_USUARIOS] at *; omega
  rcases hcase with hmax | hlt
  · have hbeep : (xSemaphoreGive_counting s.xUsuariosSem).1 = false ∧
        uint8_cast (xSemaphoreGive_counting s.xUsuariosSem).2 = MAX_USUARIOS := by
      simp only [xSemaphoreGive_counting, hmax]
      norm_num [uint8_cast, MAX_USUARIOS]
    refine ⟨?_, ?_, ?_, ?_⟩
    · simp only [vTaskEntrada_step, hbeep.1, hbeep.2]
      simp [hmax]
    · simp only [vTaskEntrada_step, hbeep.1, hbeep.2]
      simp [hmax, List.countP, List.countP.go, isToneAction]
    · intro _
      simp only [vTaskEntrada_step, xSemaphoreGive_counting, hmax]
      norm_num [MAX_USUARIOS]
    · intro hcontra
      rw [hmax] at hcontra
      norm_num [MAX_USUARIOS] at hcontra
  · have hsucc : (xSemaphoreGive_counting s.xUsuariosSem).1 = true ∧
        (xSemaphoreGive_counting s.xUsuariosSem).2 = s.xUsuariosSem + 1 := by
      refine ⟨?_, ?_⟩ <;> simp [xSemaphoreGive_counting, hlt]
    have hcond : ¬((xSemaphoreGive_counting s.xUsuariosSem).1 = false ∧
        uint8_cast (xSemaphoreGive_counting s.xUsuariosSem).2 = MAX_USUARIOS) := by
      simp [hsucc.1]
    have hacts : (vTaskEntrada_step s).2 =
        [FxAction.refreshLed (uint8_cast (xSemaphoreGive_counting s.xUsuariosSem).2),
          FxAction.refreshDisplay (uint8_cast (xSemaphoreGive_counting s.xUsuariosSem).2)] := by
      simp only [vTaskEntrada_step, if_neg hcond, List.nil_append]
    have hne : ¬ s.xUsuariosSem = MAX_USUARIOS := by
      simp only [MAX_USUARIOS] at *
      omega
    refine ⟨?_, ?_, ?_, ?_⟩
    · rw [hacts]
      constructor
      · intro hmem
        simp at hmem
      · intro hmax
        exact absurd hmax hne
    · rw [hacts, if_neg hne]
      rfl
    · intro hcontra
      exact absurd hcontra hne
    · intro hone
      refine ⟨?_, ?_⟩
      · show (xSemaphoreGive_counting s.xUsuariosSem).2 = MAX_USUARIOS
        rw [hsucc.2, hone]
        ring
      · rw [hacts]
        rfl

/-- Witness for C5 at the full state (count 9): the rejection tone is emitted
exactly once and the count stays at 9. -/
theorem C5_rejection_tone_witness :
    ((FxAction.tone 500 100 ∈ (vTaskEntrada_step ⟨9, 9⟩).2 ↔ (9 : Int) = MAX_USUARIOS) ∧
      ((vTaskEntrada_step ⟨9, 9⟩).2.countP isToneAction =
        if (9 : Int) = MAX_USUARIOS then 1 else 0) ∧
      ((9 : Int) = MAX_USUARIOS →
        (vTaskEntrada_step ⟨9, 9⟩).1.xUsuariosSem = MAX_USUARIOS) ∧
      ((9 : Int) = MAX_USUARIOS - 1 →
        (vTaskEntrada_step ⟨9, 9⟩).1.xUsuariosSem = MAX_USUARIOS ∧
          (vTaskEntrada_step ⟨9, 9⟩).2.countP isToneAction = 0)) :=
  C5_rejection_tone ⟨9, 9⟩ (by norm_num) (by norm_num [MAX_USUARIOS])

/-- CLAIM C6: for every snapshot value in `[0, MAX_USUARIOS]`, the display
status is VACANT at 0, OK strictly between 0 and the maximum, FULL at the
maximum, and the LED colour is blue (0,0,255) at 0, green (0,255,0) for
`0 < n ≤ MAX - 2`, amber/yellow (255,255,0) at `MAX - 1`, and red (255,0,0)
at `MAX`. -/
theorem C6_feedback_tiers (n : Int) (h0 : 0 ≤ n) (h9 : n ≤ MAX_USUARIOS) :
    (n = 0 → status_of n = Status.VACANT ∧ atualizar_feedback_led_rgb n = ⟨0, 0, 255⟩) ∧
      (0 < n → n < MAX_USUARIOS → status_of n = Status.OK) ∧
      (n = MAX_USUARIOS → status_of n = Status.FULL ∧
        atualizar_feedback_led_rgb n = ⟨255, 0, 0⟩) ∧
      (0 < n → n ≤ MAX_USUARIOS - 2 → atualizar_feedback_led_rgb n = ⟨0, 255, 0⟩) ∧
      (n = MAX_USUARIOS - 1 → atualizar_feedback_led_rgb n = ⟨255, 255, 0⟩) := by
  simp only [MAX_USUARIOS] at h9 ⊢
  interval_cases n <;> refine ⟨?_, ?_, ?_, ?_, ?_⟩ <;> decide

/-- Witness for C6 at the amber boundary value 8. -/
theorem C6_feedback_tiers_witness :
    (((8 : Int) = 0 → status_of 8 = Status.VACANT ∧
        atualizar_feedback_led_rgb 8 = ⟨0, 0, 255⟩) ∧
      ((0 : Int) < 8 → (8 : Int) < MAX_USUARIOS → status_of 8 = Status.OK) ∧
      ((8 : Int) = MAX_USUARIOS → status_of 8 = Status.FULL ∧
        atualizar_feedback_led_rgb 8 = ⟨255, 0, 0⟩) ∧
      ((0 : Int) < 8 → (8 : Int) ≤ MAX_USUARIOS - 2 →
        atualizar_feedback_led_rgb 8 = ⟨0, 255, 0⟩) ∧
      ((8 : Int) = MAX_USUARIOS - 1 → atualizar_feedback_led_rgb 8 = ⟨255, 255, 0⟩)) :=
  C6_feedback_tiers 8 (by norm_num) (by norm_num [MAX_USUARIOS])

theorem gpio_irq_handler_entrada_accept (t : Nat) (r : IrqState)
    (h : DEBOUNCE_DELAY_MS < u32_sub t r.last_debounce_time_entrada) :
    gpio_irq_handler BOTAO_ENTRADA t r =
      { r with last_debounce_time_entrada := t, xEntradaSem := true } := by
  rw [gpio_irq_handler, if_pos ⟨rfl, h⟩]
  rfl

theorem gpio_irq_handler_entrada_reject (t : Nat) (r : IrqState)
    (h : ¬ DEBOUNCE_DELAY_MS < u32_sub t r.last_debounce_time_entrada) :
    gpio_irq_handler BOTAO_ENTRADA t r = r := by
  simp only [gpio_irq_handler]
  rw [if_neg, if_neg, if_neg]
  · intro hc
    exact absurd hc.1 (by norm_num [BOTAO_ENTRADA, BOTAO_RESET])
  · intro hc
    exact absurd hc.1 (by norm_num [BOTAO_ENTRADA, BOTAO_SAIDA])
  · intro hc
    exact absurd hc.2 h

theorem gpio_irq_handler_saida_accept (t : Nat) (r : IrqState)
    (h : DEBOUNCE_DELAY_MS < u32_sub t r.last_debounce_time_saida) :
    gpio_irq_handler BOTAO_SAIDA t r =
      { r with last_debounce_time_saida := t, xSaidaSem := true } := by
  unfold gpio_irq_handler
  split_ifs with h1 h2 h3
  · exact absurd h1.1 (by norm_num [BOTAO_SAIDA, BOTAO_ENTRADA])
  · rfl
  · exact absurd ⟨rfl, h⟩ h2
  · exact absurd ⟨rfl, h⟩ h2

theorem gpio_irq_handler_saida_reject (t : Nat) (r : IrqState)
    (h : ¬ DEBOUNCE_DELAY_MS < u32_sub t r.last_debounce_time_saida) :
    gpio_irq_handler BOTAO_SAIDA t r = r := by
  unfold gpio_irq_handler
  split_ifs with h1 h2 h3
  · exact absurd h1.1 (by norm_num [BOTAO_SAIDA, BOTAO_ENTRADA])
  · exact absurd h2.2 h
  · exact absurd h3.1 (by norm_num [BOTAO_SAIDA, BOTAO_RESET])
  · rfl

theorem gpio_irq_handler_reset_accept (t : Nat) (r : IrqState)
    (h : DEBOUNCE_DELAY_MS < u32_sub t r.last_debounce_time_reset) :
    gpio_irq_handler BOTAO_RESET t r =
      { r with last_debounce_time_reset := t, xResetSem := true } := by
  unfold gpio_irq_handler
  split_ifs with h1 h2 h3
  · exact absurd h1.1 (by norm_num [BOTAO_RESET, BOTAO_ENTRADA])
  · exact absurd h2.1 (by norm_num [BOTAO_RESET, BOTAO_SAIDA])
  · rfl
  · exact absurd ⟨rfl, h⟩ h3

theorem gpio_irq_handler_reset_reject (t : Nat) (r : IrqState)
    (h : ¬ DEBOUNCE_DELAY_MS < u32_sub t r.last_debounce_time_reset) :
    gpio_irq_handler BOTAO_RESET t r = r := by
  unfold gpio_irq_handler
  split_ifs with h1 h2 h3
  · exact absurd h1.1 (by norm_num [BOTAO_RESET, BOTAO_ENTRADA])
  · exact absurd h2.1 (by norm_num [BOTAO_RESET, BOTAO_SAIDA])
  · exact absurd h3.2 h
  · rfl

theorem gpio_irq_handler_accept (src : Op) (t : Nat) (r : IrqState)
    (h : DEBOUNCE_DELAY_MS < u32_sub t (lastOf r src)) :
    gpio_irq_handler (pinOf src) t r = acceptedUpdate src t r := by
  cases src with
  | entrada => exact gpio_irq_handler_entrada_accept t r h
  | saida => exact gpio_irq_handler_saida_accept t r h
  | reset => exact gpio_irq_handler_reset_accept t r h

theorem gpio_irq_handler_reject (src : Op) (t : Nat) (r : IrqState)
    (h : ¬ DEBOUNCE_DELAY_MS < u32_sub t (lastOf r src)) :
    gpio_irq_handler (pinOf src) t r = r := by
  cases src with
  | entrada => exact gpio_irq_handler_entrada_reject t r h
  | saida => exact gpio_irq_handler_saida_reject t r h
  | reset => exact gpio_irq_handler_reset_reject t r h

/-- CLAIM C7: for EVERY signal source (entry, exit, reset), the dispatcher
accepts an edge at time `t` on that source's pin iff the uint32 difference
between `t` and that source's last debounce timestamp exceeds
`DEBOUNCE_DELAY_MS`, updating exactly that source's timestamp (and raising
exactly its channel) when it accepts and leaving the state untouched when it
rejects; consequently, a first edge `t1` accepted on a source followed by a
second edge `t2` on the same source within the 200 ms window leaves the
dispatcher state untouched by the second edge — exactly one logical event is
produced. -/
theorem C7_debounce (src : Op) (s : IrqState) (t1 t2 : Nat)
    (hacc : DEBOUNCE_DELAY_MS < u32_sub t1 (lastOf s src))
    (hwin : u32_sub t2 t1 ≤ DEBOUNCE_DELAY_MS) :
    (∀ (u : Nat) (r : IrqState),
        (DEBOUNCE_DELAY_MS < u32_sub u (lastOf r src) →
          gpio_irq_handler (pinOf src) u r = acceptedUpdate src u r) ∧
        (¬ DEBOUNCE_DELAY_MS < u32_sub u (lastOf r src) →
          gpio_irq_handler (pinOf src) u r = r)) ∧
      lastOf (gpio_irq_handler (pinOf src) t1 s) src = t1 ∧
      semOf (gpio_irq_handler (pinOf src) t1 s) src = true ∧
      gpio_irq_handler (pinOf src) t2 (gpio_irq_handler (pinOf src) t1 s) =
        gpio_irq_handler (pinOf src) t1 s := by
  have h1 := gpio_irq_handler_accept src t1 s hacc
  have hlast : lastOf (acceptedUpdate src t1 s) src = t1 := by
    cases src <;> rfl
  refine ⟨fun u r => ⟨gpio_irq_handler_accept src u r, gpio_irq_handler_reject src u r⟩,
    ?_, ?_, ?_⟩
  · rw [h1, hlast]
  · rw [h1]
    cases src <;> rfl
  · apply gpio_irq_handler_reject
    rw [h1, hlast]
    omega

/-- Witness for C7 on each of the three sources from the boot state with
edges at 300 ms and 400 ms: in every case the first edge is accepted and the
second (100 ms later) changes nothing. -/
theorem C7_debounce_witness :
    (gpio_irq_handler (pinOf Op.entrada) 400 (gpio_irq_handler (pinOf Op.entrada) 300 initialIrq) =
        gpio_irq_handler (pinOf Op.entrada) 300 initialIrq ∧
      semOf (gpio_irq_handler (pinOf Op.entrada) 300 initialIrq) Op.entrada = true) ∧
      (gpio_irq_handler (pinOf Op.saida) 400 (gpio_irq_handler (pinOf Op.saida) 300 initialIrq) =
        gpio_irq_handler (pinOf Op.saida) 300 initialIrq ∧
      semOf (gpio_irq_handler (pinOf Op.saida) 300 initialIrq) Op.saida = true) ∧
      (gpio_irq_handler (pinOf Op.reset) 400 (gpio_irq_handler (pinOf Op.reset) 300 initialIrq) =
        gpio_irq_handler (pinOf Op.reset) 300 initialIrq ∧
      semOf (gpio_irq_handler (pinOf Op.reset) 300 initialIrq) Op.reset = true) :=
  ⟨⟨(C7_debounce Op.entrada initialIrq 300 400 (by decide) (by decide)).2.2.2,
    (C7_debounce Op.entrada initialIrq 300 400 (by decide) (by decide)).2.2.1⟩,
   ⟨(C7_debounce Op.saida initialIrq 300 400 (by decide) (by decide)).2.2.2,
    (C7_debounce Op.saida initialIrq 300 400 (by decide) (by decide)).2.2.1⟩,
   ⟨(C7_debounce Op.reset initialIrq 300 400 (by decide) (by decide)).2.2.2,
    (C7_debounce Op.reset initialIrq 300 400 (by decide) (by decide)).2.2.1⟩⟩

/-- CLAIM C8: each event channel is a single pending slot.  A binary give on
an already-pending channel reports failure and leaves the slot exactly
"pending" (nothing is queued or counted), and whatever edge the dispatcher
handles, a channel that was pending stays pending — a second raise before the
task consumes the first is a no-op on the channel. -/
theorem C8_coalescing (s : IrqState) (gpio t : Nat)
    (he : s.xEntradaSem = true) (hs : s.xSaidaSem = true) (hr : s.xResetSem = true) :
    xSemaphoreGiveFromISR_binary true = (false, true) ∧
      (gpio_irq_handler gpio t s).xEntradaSem = true ∧
      (gpio_irq_handler gpio t s).xSaidaSem = true ∧
      (gpio_irq_handler gpio t s).xResetSem = true := by
  refine ⟨rfl, ?_, ?_, ?_⟩ <;>
    · simp only [gpio_irq_handler, xSemaphoreGiveFromISR_binary]
      split_ifs <;> simp [he, hs, hr]

/-- Witness for C8: an accepted entry edge at 300 ms on a state with all
three channels pending leaves all three still (singly) pending. -/
theorem C8_coalescing_witness :
    (xSemaphoreGiveFromISR_binary true = (false, true) ∧
      (gpio_irq_handler 5 300 ⟨0, 0, 0, true, true, true⟩).xEntradaSem = true ∧
      (gpio_irq_handler 5 300 ⟨0, 0, 0, true, true, true⟩).xSaidaSem = true ∧
      (gpio_irq_handler 5 300 ⟨0, 0, 0, true, true, true⟩).xResetSem = true) :=
  C8_coalescing ⟨0, 0, 0, true, true, true⟩ 5 300 rfl rfl rfl

/-- CLAIM C10: in the boot state every debounce timestamp is 0, so any edge
at a time of at most `DEBOUNCE_DELAY_MS` milliseconds since boot is rejected
on every pin (the handler is the identity), while an entry, exit or reset
edge strictly later than 200 ms (within the uint32 range) is accepted. -/
theorem C10_boot_debounce (gpio t u : Nat) (ht : t ≤ DEBOUNCE_DELAY_MS)
    (hu1 : DEBOUNCE_DELAY_MS < u) (hu2 : u < U32_MOD) :
    gpio_irq_handler gpio t initialIrq = initialIrq ∧
      (gpio_irq_handler BOTAO_ENTRADA u initialIrq).xEntradaSem = true ∧
      (gpio_irq_handler BOTAO_SAIDA u initialIrq).xSaidaSem = true ∧
      (gpio_irq_handler BOTAO_RESET u initialIrq).xResetSem = true := by
  have hz : ∀ v : Nat, v < U32_MOD → u32_sub v 0 = v := by
    intro v hv
    simp only [u32_sub, U32_MOD] at *
    omega
  have ht32 : t < U32_MOD := by
    simp only [DEBOUNCE_DELAY_MS, U32_MOD] at *
    omega
  have hrej : ∀ w : Nat, ¬ DEBOUNCE_DELAY_MS < u32_sub t w → True := fun _ _ => trivial
  refine ⟨?_, ?_, ?_, ?_⟩
  · simp only [gpio_irq_handler, initialIrq]
    have : ¬ DEBOUNCE_DELAY_MS < u32_sub t 0 := by
      rw [hz t ht32]
      omega
    split_ifs with h1 h2 h3
    · exact absurd h1.2 this
    · exact absurd h2.2 this
    · exact absurd h3.2 this
    · rfl
  · rw [gpio_irq_handler_entrada_accept u initialIrq (by rw [show initialIrq.last_debounce_time_entrada = 0 from rfl, hz u hu2]; exact hu1)]
  · simp only [gpio_irq_handler, xSemaphoreGiveFromISR_binary]
    rw [if_neg, if_pos]
    · exact ⟨trivial, by rw [show (initialIrq : IrqState).last_debounce_time_saida = 0 from rfl, hz u hu2]; exact hu1⟩
    · intro hc
      exact absurd hc.1 (by norm_num [BOTAO_SAIDA, BOTAO_ENTRADA])
  · simp only [gpio_irq_handler, xSemaphoreGiveFromISR_binary]
    rw [if_neg, if_neg, if_pos]
    · exact ⟨trivial, by rw [show (initialIrq : IrqState).last_debounce_time_reset = 0 from rfl, hz u hu2]; exact hu1⟩
    · intro hc
      exact absurd hc.1 (by norm_num [BOTAO_RESET, BOTAO_SAIDA])
    · intro hc
      exact absurd hc.1 (by norm_num [BOTAO_RESET, BOTAO_ENTRADA])

/-- Witness for C10: an edge at 100 ms on the exit pin is dropped at boot,
while edges at 300 ms on each pin are accepted. -/
theorem C10_boot_debounce_witness :
    (gpio_irq_handler 6 100 initialIrq = initialIrq ∧
      (gpio_irq_handler BOTAO_ENTRADA 300 initialIrq).xEntradaSem = true ∧
      (gpio_irq_handler BOTAO_SAIDA 300 initialIrq).xSaidaSem = true ∧
      (gpio_irq_handler BOTAO_RESET 300 initialIrq).xResetSem = true) :=
  C10_boot_debounce 6 100 300 (by decide) (by decide) (by decide)

/-- Counterexample to C9 as stated: reset signals arrive at 300 ms and 600 ms
(both post-debounce, and 600 ms lies inside the 500 ms cooldown that follows
the servicing at 300 ms), yet the Reset Task performs TWO reset servicings —
the second signal is deferred to the end of the cooldown (800 ms), not
ignored. -/
theorem C9_cooldown_counterexample :
    600 < 300 + RESET_COOLDOWN_MS ∧
      vTaskReset_services [300, 600] none 0 = [300, 800] ∧
      (vTaskReset_services [300, 600] none 0).length ≠ 1 := by
  refine ⟨by decide, by decide, by decide⟩

/-- CLAIM C9 (amended): a reset signal arriving within the 500 ms cooldown of
a previous servicing is not serviced during the cooldown; it is deferred
(coalesced into the single pending slot) and serviced exactly once when the
cooldown expires, so the two signals yield servicings at `t1` and exactly
`t1 + RESET_COOLDOWN_MS`. -/
theorem C9_reset_cooldown (t1 t2 : Nat) (h1 : t1 < t2)
    (h2 : t2 < t1 + RESET_COOLDOWN_MS) :
    vTaskReset_services [t1, t2] none 0 = [t1, t1 + RESET_COOLDOWN_MS] := by
  simp only [vTaskReset_services, Nat.zero_max]
  rw [if_pos (le_of_lt h1), max_eq_left (le_of_lt h2)]

/-- Witness for the amended C9 with signals at 300 ms and 600 ms. -/
theorem C9_reset_cooldown_witness :
    vTaskReset_services [300, 600] none 0 = [300, 300 + RESET_COOLDOWN_MS] :=
  C9_reset_cooldown 300 600 (by decide) (by decide)
